import Mathlib

/-!
Shallow embedding of the multicast UDP socket layer (src/unix.rs) and proofs
of its specified behaviour.

The OS socket facilities (socket creation, option setting, multicast joins,
bind, recvmsg, send_to) are effects external to this code.  They are modelled
by an oracle structure `Os` whose fields give the outcome of each OS call, and
every embedded operation returns, besides its result, the list of OS calls it
performed (`List OsCall`) and the updated socket value.  This makes call order,
abort-on-first-failure and error propagation provable facts about the
embedding, while the oracle stays fully abstract.
-/

namespace MCast

/-- An IPv4 address, four octets (std::net::Ipv4Addr). -/
structure Ipv4Addr where
  o0 : Nat
  o1 : Nat
  o2 : Nat
  o3 : Nat
deriving DecidableEq, Repr

/-- Ipv4Addr::UNSPECIFIED, i.e. 0.0.0.0. -/
def Ipv4Addr.UNSPECIFIED : Ipv4Addr := ⟨0, 0, 0, 0⟩

/-- An IPv4 socket address: address plus port (std::net::SocketAddrV4). -/
structure SocketAddrV4 where
  ip : Ipv4Addr
  port : Nat
deriving DecidableEq, Repr

/-- The i32 → u32 reinterpret cast (Rust: value as u32) on a C int. -/
def u32_cast_of_int (i : Int) : Nat := (Int.emod i (2 ^ 32)).toNat

/-- The u32 → i32 reinterpret cast (Rust: value as i32). -/
def i32_cast_of_nat (v : Nat) : Int :=
  if v % 2 ^ 32 < 2 ^ 31 then ((v % 2 ^ 32 : Nat) : Int)
  else ((v % 2 ^ 32 : Nat) : Int) - 2 ^ 32

/-- Rust std::io::ErrorKind, restricted to the variants relevant here:
the catch-all Other used by nix_to_io_error, and the two kinds that signal
a read timeout in std (TimedOut for SO_RCVTIMEO on some platforms,
WouldBlock for EAGAIN/EWOULDBLOCK). -/
inductive ErrorKind where
  | Other
  | TimedOut
  | WouldBlock
deriving DecidableEq, Repr

/-- Rust std::io::Error as observed by a caller: its kind, and the wrapped
inner OS errno when the error was built from a nix error (io::Error::new
stores the source error; we keep its errno). -/
structure IoError where
  kind : ErrorKind
  errno : Option Nat
deriving DecidableEq, Repr

/-- nix_to_io_error (src/unix.rs line 108): wraps any nix error, whatever its
errno, into an io::Error with kind Other carrying the nix error inside. -/
def nix_to_io_error (e : Nat) : IoError := ⟨ErrorKind.Other, some e⟩

/-- Map the error of an Except through a function (the Rust map_err). -/
def mapErr {e1 e2 a : Type} (f : e1 → e2) : Except e1 a → Except e2 a
  | Except.ok v => Except.ok v
  | Except.error e => Except.error (f e)

/-- Interface (src/unix.rs lines 68-73). -/
inductive Interface where
  | Default
  | Ip (addr : Ipv4Addr)
  | Index (idx : Nat)
deriving DecidableEq, Repr

/-- libc::in_pktinfo as read by the receive path: only ipi_ifindex (a C int)
is consulted by the code. -/
structure InPktinfo where
  ipi_ifindex : Int
deriving DecidableEq, Repr

/-- nix ControlMessageOwned, restricted to the shape receive inspects:
the Ipv4PacketInfo record, or any other control-message kind (abstracted by
a tag). -/
inductive ControlMessageOwned where
  | Ipv4PacketInfo (pktinfo : InPktinfo)
  | OtherCmsg (tag : Nat)
deriving DecidableEq, Repr

/-- nix InetAddr: an internet address, IPv4 or IPv6 (IPv6 abstracted). -/
inductive InetAddr where
  | V4 (addr : SocketAddrV4)
  | V6 (raw : Nat)
deriving DecidableEq, Repr

/-- std::net::SocketAddr, the result of InetAddr::to_std. -/
inductive StdSocketAddr where
  | V4 (addr : SocketAddrV4)
  | V6 (raw : Nat)
deriving DecidableEq, Repr

/-- InetAddr::to_std. -/
def InetAddr.to_std : InetAddr → StdSocketAddr
  | InetAddr.V4 a => StdSocketAddr.V4 a
  | InetAddr.V6 r => StdSocketAddr.V6 r

/-- nix SockAddr as matched by receive: Inet, or any non-internet family
(abstracted by a tag). -/
inductive SockAddr where
  | Inet (addr : InetAddr)
  | NonInet (tag : Nat)
deriving DecidableEq, Repr

/-- Message (src/unix.rs lines 75-80).  Payload bytes are modelled as Nat. -/
structure Message where
  data : List Nat
  origin_address : SocketAddrV4
  interface : Interface
deriving DecidableEq, Repr

/-- MulticastOptions (src/unix.rs lines 17-21); read_timeout in ms. -/
structure MulticastOptions where
  read_timeout : Nat
  loopback : Bool
  buffer_size : Nat
deriving DecidableEq, Repr

/-- Default for MulticastOptions (src/unix.rs lines 23-31). -/
def MulticastOptions.default : MulticastOptions :=
  { read_timeout := 100, loopback := false, buffer_size := 512 }

/-- ip_mreqn (libc), as filled by the ProtoMulticastIfIndex option. -/
structure IpMreqn where
  imr_multiaddr : Nat
  imr_address : Nat
  imr_ifindex : Int
deriving DecidableEq, Repr

/-- ProtoMulticastIfIndex::set (src/unix.rs lines 174-191): the raw option
value it passes to setsockopt, a zeroed ip_mreqn whose imr_ifindex is the
index cast to i32. -/
def ProtoMulticastIfIndex.req (val : Nat) : IpMreqn :=
  { imr_multiaddr := 0, imr_address := 0, imr_ifindex := i32_cast_of_nat val }

/-- The OS-level socket state a MulticastSocket can mutate after
construction: the multicast egress-interface option (set by the send path). -/
inductive EgressIf where
  | Unset
  | ByAddr (addr : Ipv4Addr)
  | ByMreqn (req : IpMreqn)
deriving DecidableEq, Repr

/-- The socket2::Socket handle, abstracted to the mutable option state the
embedded operations touch. -/
structure SockState where
  egress : EgressIf
deriving DecidableEq, Repr

/-- MulticastSocket (src/unix.rs lines 61-66). -/
structure MulticastSocket where
  socket : SockState
  interfaces : List Ipv4Addr
  multicast_address : SocketAddrV4
  buffer_size : Nat
deriving DecidableEq, Repr

/-- One OS call, as recorded in an operation trace. -/
inductive OsCall where
  | socketNew
  | setReadTimeout (ms : Nat)
  | setMulticastLoopV4 (b : Bool)
  | setReuseAddress (b : Bool)
  | setReusePort (b : Bool)
  | setsockoptIpv4PacketInfo (b : Bool)
  | joinMulticastV4 (group : Ipv4Addr) (iface : Ipv4Addr)
  | bindTo (addr : SocketAddrV4)
  | setMulticastIfV4 (addr : Ipv4Addr)
  | setsockoptMulticastIfIndex (req : IpMreqn)
  | sendTo (buf : List Nat) (dest : SocketAddrV4)
  | recvmsg
deriving DecidableEq, Repr

/-- The OS oracle: the outcome of each OS call the code can make.  Errors are
io errors except for the two nix-level calls (raw errnos, to be wrapped by
nix_to_io_error as the code does). -/
structure Os where
  socket_new : Except IoError Unit
  set_read_timeout : Nat → Except IoError Unit
  set_multicast_loop_v4 : Bool → Except IoError Unit
  set_reuse_address : Bool → Except IoError Unit
  set_reuse_port : Bool → Except IoError Unit
  setsockopt_pktinfo : Except Nat Unit
  join_multicast_v4 : Ipv4Addr → Ipv4Addr → Except IoError Unit
  bind : SocketAddrV4 → Except IoError Unit
  set_multicast_if_v4 : Ipv4Addr → Except IoError Unit
  setsockopt_if_index : IpMreqn → Except Nat Unit
  send_to : List Nat → SocketAddrV4 → Except IoError Nat

/-- A successful recvmsg outcome as delivered by the OS: the datagram that
arrived (recvmsg stores min(datagram length, buffer length) of its bytes into
the caller buffer and reports that count), the sender address if known, and
the ancillary control messages. -/
structure RecvMsgOk where
  dgram : List Nat
  address : Option SockAddr
  cmsgs : List ControlMessageOwned
deriving DecidableEq, Repr

/-- MulticastSocket::receive (src/unix.rs lines 113-147).  The recvmsg
outcome (success with data / nix errno) is the oracle input. -/
def MulticastSocket.receive (s : MulticastSocket) (os_recv : Except Nat RecvMsgOk) :
    Except IoError Message × MulticastSocket × List OsCall :=
  match os_recv with
  | Except.error e => (Except.error (nix_to_io_error e), s, [OsCall.recvmsg])
  | Except.ok message =>
    let data_buffer : List Nat :=
      message.dgram.take s.buffer_size ++
        List.replicate (s.buffer_size - message.dgram.length) 0
    let bytes : Nat := min message.dgram.length s.buffer_size
    let origin_address : Option StdSocketAddr :=
      match message.address with
      | some (SockAddr.Inet v4) => some v4.to_std
      | _ => none
    let origin_address : SocketAddrV4 :=
      match origin_address with
      | some (StdSocketAddr.V4 v4) => v4
      | _ => SocketAddrV4.mk Ipv4Addr.UNSPECIFIED 0
    let interface : Interface :=
      message.cmsgs.foldl
        (fun acc cmsg =>
          match cmsg with
          | ControlMessageOwned.Ipv4PacketInfo pktinfo =>
              Interface.Index (u32_cast_of_int pktinfo.ipi_ifindex)
          | _ => acc)
        Interface.Default
    (Except.ok
      { data := data_buffer.take bytes
        origin_address := origin_address
        interface := interface },
      s, [OsCall.recvmsg])

/-- The last Ipv4PacketInfo record of a control-message list, if any (the
receive loop overwrites its interface on each such record, so the last one
wins; the control buffer is sized for a single record). -/
def lastIpv4PacketInfo (cmsgs : List ControlMessageOwned) : Option InPktinfo :=
  cmsgs.foldl
    (fun acc cmsg =>
      match cmsg with
      | ControlMessageOwned.Ipv4PacketInfo pktinfo => some pktinfo
      | _ => acc)
    none

/-- MulticastSocket::send (src/unix.rs lines 149-161).  First resolves the
egress interface per the Interface variant (Default → set_multicast_if_v4
with 0.0.0.0; Ip → set_multicast_if_v4 with that address; Index → raw
ProtoMulticastIfIndex setsockopt, error mapped through nix_to_io_error),
then, only if the option-set succeeded, writes the full payload to the
configured multicast address via send_to, returning its result. -/
def MulticastSocket.send (os : Os) (s : MulticastSocket) (buf : List Nat)
    (interface : Interface) : Except IoError Nat × MulticastSocket × List OsCall :=
  match interface with
  | Interface.Default =>
    match os.set_multicast_if_v4 Ipv4Addr.UNSPECIFIED with
    | Except.error e => (Except.error e, s, [OsCall.setMulticastIfV4 Ipv4Addr.UNSPECIFIED])
    | Except.ok _ =>
      (os.send_to buf s.multicast_address,
        { s with socket := { egress := EgressIf.ByAddr Ipv4Addr.UNSPECIFIED } },
        [OsCall.setMulticastIfV4 Ipv4Addr.UNSPECIFIED,
         OsCall.sendTo buf s.multicast_address])
  | Interface.Ip address =>
    match os.set_multicast_if_v4 address with
    | Except.error e => (Except.error e, s, [OsCall.setMulticastIfV4 address])
    | Except.ok _ =>
      (os.send_to buf s.multicast_address,
        { s with socket := { egress := EgressIf.ByAddr address } },
        [OsCall.setMulticastIfV4 address, OsCall.sendTo buf s.multicast_address])
  | Interface.Index idx =>
    match os.setsockopt_if_index (ProtoMulticastIfIndex.req idx) with
    | Except.error e =>
      (Except.error (nix_to_io_error e), s,
        [OsCall.setsockoptMulticastIfIndex (ProtoMulticastIfIndex.req idx)])
    | Except.ok _ =>
      (os.send_to buf s.multicast_address,
        { s with socket := { egress := EgressIf.ByMreqn (ProtoMulticastIfIndex.req idx) } },
        [OsCall.setsockoptMulticastIfIndex (ProtoMulticastIfIndex.req idx),
         OsCall.sendTo buf s.multicast_address])

/-- The loop body of MulticastSocket::broadcast: send to each interface of
the list with Interface::Ip, threading the socket state, stopping at the
first failing send and returning its error. -/
def MulticastSocket.broadcastGo (os : Os) (buf : List Nat) :
    List Ipv4Addr → MulticastSocket → Except IoError Unit × MulticastSocket × List OsCall
  | [], s => (Except.ok (), s, [])
  | i :: rest, s =>
    match MulticastSocket.send os s buf (Interface.Ip i) with
    | (Except.ok _, s1, tr) =>
      match MulticastSocket.broadcastGo os buf rest s1 with
      | (r, s2, tr2) => (r, s2, tr ++ tr2)
    | (Except.error e, s1, tr) => (Except.error e, s1, tr)

/-- MulticastSocket::broadcast (src/unix.rs lines 163-168). -/
def MulticastSocket.broadcast (os : Os) (s : MulticastSocket) (buf : List Nat) :
    Except IoError Unit × MulticastSocket × List OsCall :=
  MulticastSocket.broadcastGo os buf s.interfaces s

/-- bind_multicast (src/unix.rs lines 13-15): binds to the given (multicast)
address. -/
def bind_multicast (os : Os) (addr : SocketAddrV4) : Except IoError Unit :=
  os.bind addr

/-- The sequence of OS steps create_on_interfaces performs, in source order
(src/unix.rs lines 38-51), each paired with its oracle outcome. -/
def createSteps (os : Os) (options : MulticastOptions) (interfaces : List Ipv4Addr)
    (multicast_address : SocketAddrV4) : List (OsCall × Except IoError Unit) :=
  [(OsCall.socketNew, os.socket_new),
   (OsCall.setReadTimeout options.read_timeout, os.set_read_timeout options.read_timeout),
   (OsCall.setMulticastLoopV4 options.loopback, os.set_multicast_loop_v4 options.loopback),
   (OsCall.setReuseAddress true, os.set_reuse_address true),
   (OsCall.setReusePort true, os.set_reuse_port true),
   (OsCall.setsockoptIpv4PacketInfo true, mapErr nix_to_io_error os.setsockopt_pktinfo)]
  ++ interfaces.map (fun interface =>
       (OsCall.joinMulticastV4 multicast_address.ip interface,
        os.join_multicast_v4 multicast_address.ip interface))
  ++ [(OsCall.bindTo multicast_address, bind_multicast os multicast_address)]

/-- Run a step list in order with ?-propagation: each step is performed only
if all earlier ones succeeded; the first failure stops the run and its error
is recorded.  Returns the calls actually performed and the error, if any. -/
def runSteps : List (OsCall × Except IoError Unit) → List OsCall × Option IoError
  | [] => ([], none)
  | (c, r) :: rest =>
    match r with
    | Except.ok _ =>
      match runSteps rest with
      | (tr, e) => (c :: tr, e)
    | Except.error e => ([c], some e)

/-- create_on_interfaces (src/unix.rs lines 33-59): performs the step
sequence; on any failure the first error is returned, otherwise the
MulticastSocket value is built from the inputs. -/
def create_on_interfaces (os : Os) (options : MulticastOptions)
    (interfaces : List Ipv4Addr) (multicast_address : SocketAddrV4) :
    Except IoError MulticastSocket × List OsCall :=
  match runSteps (createSteps os options interfaces multicast_address) with
  | (tr, some e) => (Except.error e, tr)
  | (tr, none) =>
    (Except.ok
      { socket := { egress := EgressIf.Unset }
        interfaces := interfaces
        multicast_address := multicast_address
        buffer_size := options.buffer_size },
      tr)

/-- MulticastSocket::with_options (src/unix.rs lines 99-105). -/
def MulticastSocket.with_options (os : Os) (multicast_address : SocketAddrV4)
    (interfaces : List Ipv4Addr) (options : MulticastOptions) :
    Except IoError MulticastSocket × List OsCall :=
  create_on_interfaces os options interfaces multicast_address

/-- One post-construction operation on a socket, with its oracle input. -/
inductive SocketOp where
  | opReceive (os_recv : Except Nat RecvMsgOk)
  | opSend (buf : List Nat) (interface : Interface)
  | opBroadcast (buf : List Nat)

/-- Apply one operation, keeping the resulting socket state. -/
def applyOp (os : Os) (s : MulticastSocket) : SocketOp → MulticastSocket
  | SocketOp.opReceive r => (MulticastSocket.receive s r).2.1
  | SocketOp.opSend buf i => (MulticastSocket.send os s buf i).2.1
  | SocketOp.opBroadcast buf => (MulticastSocket.broadcast os s buf).2.1

/-- Run a sequence of operations after construction. -/
def runOps (os : Os) (s : MulticastSocket) (ops : List SocketOp) : MulticastSocket :=
  ops.foldl (applyOp os) s

/-- Is an OS call a datagram write? -/
def OsCall.isSendTo : OsCall → Bool
  | OsCall.sendTo _ _ => true
  | _ => false

/-- The outcome of the per-interface send a broadcast performs with
Interface::Ip i: the first error among the option-set and the write, none if
both succeed. -/
def sendIpErr (os : Os) (buf : List Nat) (addr : SocketAddrV4) (i : Ipv4Addr) :
    Option IoError :=
  match os.set_multicast_if_v4 i with
  | Except.error e => some e
  | Except.ok _ =>
    match os.send_to buf addr with
    | Except.error e => some e
    | Except.ok _ => none

/-- The OS calls of one per-interface send with Interface::Ip i: the egress
option-set, then the write when the option-set succeeded. -/
def sendIpCalls (os : Os) (buf : List Nat) (addr : SocketAddrV4) (i : Ipv4Addr) :
    List OsCall :=
  OsCall.setMulticastIfV4 i ::
    (match os.set_multicast_if_v4 i with
     | Except.error _ => []
     | Except.ok _ => [OsCall.sendTo buf addr])

/-- The full OS call list of a successful construction, in source order. -/
def createCalls (options : MulticastOptions) (interfaces : List Ipv4Addr)
    (multicast_address : SocketAddrV4) : List OsCall :=
  [OsCall.socketNew,
   OsCall.setReadTimeout options.read_timeout,
   OsCall.setMulticastLoopV4 options.loopback,
   OsCall.setReuseAddress true,
   OsCall.setReusePort true,
   OsCall.setsockoptIpv4PacketInfo true]
  ++ interfaces.map (fun interface => OsCall.joinMulticastV4 multicast_address.ip interface)
  ++ [OsCall.bindTo multicast_address]

/-- The arrival interface determined by an optional packet-info record. -/
def ifaceOfPktinfo : Option InPktinfo → Interface
  | some pktinfo => Interface.Index (u32_cast_of_int pktinfo.ipi_ifindex)
  | none => Interface.Default

/-- The calls a run performs are an in-order front segment of the step list. -/
theorem runSteps_front (l : List (OsCall × Except IoError Unit)) :
    ∃ t, (runSteps l).1 ++ t = l.map Prod.fst := by
  induction l with
  | nil => exact ⟨[], rfl⟩
  | cons p rest ih =>
    obtain ⟨c, r⟩ := p
    cases r with
    | ok v =>
      obtain ⟨t, ht⟩ := ih
      exact ⟨t, by simp [runSteps, ← ht]⟩
    | error e =>
      exact ⟨rest.map Prod.fst, by simp [runSteps]⟩

/-- A run with no error performed every step. -/
theorem runSteps_none_trace (l : List (OsCall × Except IoError Unit)) :
    (runSteps l).2 = none → (runSteps l).1 = l.map Prod.fst := by
  induction l with
  | nil => intro _; rfl
  | cons p rest ih =>
    obtain ⟨c, r⟩ := p
    cases r with
    | ok v => intro h; simp [runSteps] at h ⊢; exact ih h
    | error e => intro h; simp [runSteps] at h

/-- A run with no error means the outcome of every step was success. -/
theorem runSteps_none_forall (l : List (OsCall × Except IoError Unit)) :
    (runSteps l).2 = none → ∀ p ∈ l, p.2 = Except.ok () := by
  induction l with
  | nil => intro _ p hp; cases hp
  | cons q rest ih =>
    obtain ⟨c, r⟩ := q
    cases r with
    | ok v =>
      intro h p hp
      simp [runSteps] at h
      rcases List.mem_cons.mp hp with hp1 | hp1
      · rw [hp1]
      · exact ih h p hp1
    | error e => intro h; simp [runSteps] at h

/-- Running a list whose steps all succeed performs them all with no error. -/
theorem runSteps_all_ok (l : List (OsCall × Except IoError Unit))
    (h : ∀ p ∈ l, p.2 = Except.ok ()) : runSteps l = (l.map Prod.fst, none) := by
  induction l with
  | nil => rfl
  | cons q rest ih =>
    obtain ⟨c, r⟩ := q
    have hq := h (c, r) (List.mem_cons_self _ _)
    simp at hq
    subst hq
    have hrest := ih (fun p hp => h p (List.mem_cons_of_mem _ hp))
    simp [runSteps, hrest]

/-- A run stops at the first failing step: the steps before it all run, the
failing one is performed and its error returned, nothing after it runs. -/
theorem runSteps_split (l1 : List (OsCall × Except IoError Unit)) (c : OsCall)
    (e : IoError) (l2 : List (OsCall × Except IoError Unit))
    (h : ∀ p ∈ l1, p.2 = Except.ok ()) :
    runSteps (l1 ++ (c, Except.error e) :: l2) = (l1.map Prod.fst ++ [c], some e) := by
  induction l1 with
  | nil => simp [runSteps]
  | cons q rest ih =>
    obtain ⟨c1, r1⟩ := q
    have hq := h (c1, r1) (List.mem_cons_self _ _)
    simp at hq
    subst hq
    have hrest := ih (fun p hp => h p (List.mem_cons_of_mem _ hp))
    simp [runSteps, hrest]

/-- The calls of the step list are exactly createCalls, in order. -/
theorem createSteps_map_fst (os : Os) (options : MulticastOptions)
    (interfaces : List Ipv4Addr) (multicast_address : SocketAddrV4) :
    (createSteps os options interfaces multicast_address).map Prod.fst
      = createCalls options interfaces multicast_address := by
  simp [createSteps, createCalls]

/-- The trace of create_on_interfaces is the trace of its step run. -/
theorem create_trace_eq (os : Os) (options : MulticastOptions)
    (interfaces : List Ipv4Addr) (multicast_address : SocketAddrV4) :
    (create_on_interfaces os options interfaces multicast_address).2
      = (runSteps (createSteps os options interfaces multicast_address)).1 := by
  unfold create_on_interfaces
  rcases h : runSteps (createSteps os options interfaces multicast_address) with ⟨tr, err⟩
  cases err <;> simp [h]

/-- create_on_interfaces returns a socket only when its step run reported no
error. -/
theorem create_ok_none (os : Os) (options : MulticastOptions)
    (interfaces : List Ipv4Addr) (multicast_address : SocketAddrV4)
    (sock : MulticastSocket)
    (h : (create_on_interfaces os options interfaces multicast_address).1 = Except.ok sock) :
    (runSteps (createSteps os options interfaces multicast_address)).2 = none := by
  unfold create_on_interfaces at h
  rcases h2 : runSteps (createSteps os options interfaces multicast_address) with ⟨tr, err⟩
  cases err with
  | none => rfl
  | some e => rw [h2] at h; simp at h

/-- The receive loop over control messages computes the interface of the last
packet-info record, scanning left to right with later records overwriting
earlier ones. -/
theorem foldl_interface_eq (l : List ControlMessageOwned) :
    ∀ acc : Option InPktinfo,
      l.foldl
        (fun acc2 cmsg =>
          match cmsg with
          | ControlMessageOwned.Ipv4PacketInfo pktinfo =>
              Interface.Index (u32_cast_of_int pktinfo.ipi_ifindex)
          | _ => acc2)
        (ifaceOfPktinfo acc)
      = ifaceOfPktinfo
          (l.foldl
            (fun acc2 cmsg =>
              match cmsg with
              | ControlMessageOwned.Ipv4PacketInfo pktinfo => some pktinfo
              | _ => acc2)
            acc) := by
  induction l with
  | nil => intro acc; rfl
  | cons c rest ih =>
    intro acc
    cases c with
    | Ipv4PacketInfo p => exact ih (some p)
    | OtherCmsg t => exact ih acc

/-- Taking the reported byte count from the receive buffer recovers exactly
the datagram truncated to the buffer size. -/
theorem take_buffer_eq (dgram : List Nat) (bs : Nat) :
    (dgram.take bs ++ List.replicate (bs - dgram.length) 0).take (min dgram.length bs)
      = dgram.take bs := by
  rcases le_total dgram.length bs with h | h
  · rw [min_eq_left h, List.take_of_length_le h,
      List.take_append_of_le_length (le_of_eq rfl.symm)]
    · exact List.take_length dgram
  · rw [min_eq_right h, Nat.sub_eq_zero_of_le h]
    simp [List.take_take]

/-- send leaves the configuration fields of the socket unchanged. -/
theorem send_config (os : Os) (s : MulticastSocket) (buf : List Nat)
    (interface : Interface) :
    ((MulticastSocket.send os s buf interface).2.1).interfaces = s.interfaces ∧
    ((MulticastSocket.send os s buf interface).2.1).multicast_address = s.multicast_address ∧
    ((MulticastSocket.send os s buf interface).2.1).buffer_size = s.buffer_size := by
  cases interface with
  | Default =>
    cases h : os.set_multicast_if_v4 Ipv4Addr.UNSPECIFIED <;>
      simp [MulticastSocket.send, h]
  | Ip a =>
    cases h : os.set_multicast_if_v4 a <;> simp [MulticastSocket.send, h]
  | Index idx =>
    cases h : os.setsockopt_if_index (ProtoMulticastIfIndex.req idx) <;>
      simp [MulticastSocket.send, h]

/-- The trace of a send on Interface::Ip. -/
theorem send_ip_trace (os : Os) (s : MulticastSocket) (buf : List Nat) (i : Ipv4Addr) :
    (MulticastSocket.send os s buf (Interface.Ip i)).2.2
      = sendIpCalls os buf s.multicast_address i := by
  cases h : os.set_multicast_if_v4 i <;>
    simp [MulticastSocket.send, sendIpCalls, h]

/-- A send on Interface::Ip whose option-set and write both succeed. -/
theorem send_ip_ok (os : Os) (s : MulticastSocket) (buf : List Nat) (i : Ipv4Addr)
    (h : sendIpErr os buf s.multicast_address i = none) :
    ∃ n, MulticastSocket.send os s buf (Interface.Ip i)
      = (Except.ok n, { s with socket := { egress := EgressIf.ByAddr i } },
         [OsCall.setMulticastIfV4 i, OsCall.sendTo buf s.multicast_address]) := by
  unfold sendIpErr at h
  cases h1 : os.set_multicast_if_v4 i with
  | error e => rw [h1] at h; simp at h
  | ok v =>
    rw [h1] at h
    cases h2 : os.send_to buf s.multicast_address with
    | error e => rw [h2] at h; simp at h
    | ok n => exact ⟨n, by simp [MulticastSocket.send, h1, h2]⟩

/-- A send on Interface::Ip whose first failing OS call yields error e. -/
theorem send_ip_fail (os : Os) (s : MulticastSocket) (buf : List Nat) (i : Ipv4Addr)
    (e : IoError) (h : sendIpErr os buf s.multicast_address i = some e) :
    ∃ s1, MulticastSocket.send os s buf (Interface.Ip i)
        = (Except.error e, s1, sendIpCalls os buf s.multicast_address i) := by
  unfold sendIpErr at h
  cases h1 : os.set_multicast_if_v4 i with
  | error e1 =>
    rw [h1] at h
    simp at h
    subst h
    exact ⟨s, by simp [MulticastSocket.send, sendIpCalls, h1]⟩
  | ok v =>
    rw [h1] at h
    cases h2 : os.send_to buf s.multicast_address with
    | error e2 =>
      rw [h2] at h
      simp at h
      subst h
      exact ⟨{ s with socket := { egress := EgressIf.ByAddr i } },
        by simp [MulticastSocket.send, sendIpCalls, h1, h2]⟩
    | ok n => rw [h2] at h; simp at h

/-- The broadcast loop leaves the configuration fields unchanged. -/
theorem broadcastGo_config (os : Os) (buf : List Nat) :
    ∀ (l : List Ipv4Addr) (s : MulticastSocket),
      ((MulticastSocket.broadcastGo os buf l s).2.1).interfaces = s.interfaces ∧
      ((MulticastSocket.broadcastGo os buf l s).2.1).multicast_address = s.multicast_address ∧
      ((MulticastSocket.broadcastGo os buf l s).2.1).buffer_size = s.buffer_size := by
  intro l
  induction l with
  | nil => intro s; exact ⟨rfl, rfl, rfl⟩
  | cons i rest ih =>
    intro s
    have hc := send_config os s buf (Interface.Ip i)
    rcases hsend : MulticastSocket.send os s buf (Interface.Ip i) with ⟨r, s1, tr⟩
    rw [hsend] at hc
    cases r with
    | ok v =>
      have hc2 := ih s1
      rcases hgo : MulticastSocket.broadcastGo os buf rest s1 with ⟨r2, s2, tr2⟩
      rw [hgo] at hc2
      simp [MulticastSocket.broadcastGo, hsend, hgo]
      exact ⟨hc2.1.trans hc.1, hc2.2.1.trans hc.2.1, hc2.2.2.trans hc.2.2⟩
    | error e =>
      simp [MulticastSocket.broadcastGo, hsend]
      exact hc

/-- When the per-interface send succeeds on every interface of the list, the
broadcast loop succeeds and its trace is, in list order, the egress option-set
followed by the write for each interface. -/
theorem broadcastGo_all_ok (os : Os) (buf : List Nat) (addr : SocketAddrV4) :
    ∀ (l : List Ipv4Addr) (s : MulticastSocket),
      s.multicast_address = addr →
      (∀ i ∈ l, sendIpErr os buf addr i = none) →
      (MulticastSocket.broadcastGo os buf l s).1 = Except.ok () ∧
      (MulticastSocket.broadcastGo os buf l s).2.2
        = l.flatMap (fun i => [OsCall.setMulticastIfV4 i, OsCall.sendTo buf addr]) := by
  intro l
  induction l with
  | nil => intro s _ _; exact ⟨rfl, rfl⟩
  | cons i rest ih =>
    intro s hs hall
    subst hs
    obtain ⟨n, hsend⟩ := send_ip_ok os s buf i (hall i (List.mem_cons_self _ _))
    have hrest := ih { s with socket := { egress := EgressIf.ByAddr i } } rfl
      (fun i2 hi2 => hall i2 (List.mem_cons_of_mem _ hi2))
    rcases hgo : MulticastSocket.broadcastGo os buf rest
        { s with socket := { egress := EgressIf.ByAddr i } } with ⟨r2, s2, tr2⟩
    rw [hgo] at hrest
    simp at hrest
    simp [MulticastSocket.broadcastGo, hsend, hgo, hrest.1, hrest.2]

/-- When the sends on a front segment succeed and the send on the next
interface fails, the broadcast loop stops there: its error is returned, the
completed sends stay in the trace, and no later interface is attempted. -/
theorem broadcastGo_fail (os : Os) (buf : List Nat) (addr : SocketAddrV4) :
    ∀ (l1 : List Ipv4Addr) (j : Ipv4Addr) (l2 : List Ipv4Addr) (e : IoError)
      (s : MulticastSocket),
      s.multicast_address = addr →
      (∀ i ∈ l1, sendIpErr os buf addr i = none) →
      sendIpErr os buf addr j = some e →
      (MulticastSocket.broadcastGo os buf (l1 ++ j :: l2) s).1 = Except.error e ∧
      (MulticastSocket.broadcastGo os buf (l1 ++ j :: l2) s).2.2
        = l1.flatMap (fun i => [OsCall.setMulticastIfV4 i, OsCall.sendTo buf addr])
            ++ sendIpCalls os buf addr j := by
  intro l1
  induction l1 with
  | nil =>
    intro j l2 e s hs _ hj
    subst hs
    obtain ⟨s1, hsend⟩ := send_ip_fail os s buf j e hj
    simp [MulticastSocket.broadcastGo, hsend]
  | cons i rest ih =>
    intro j l2 e s hs hall hj
    subst hs
    obtain ⟨n, hsend⟩ := send_ip_ok os s buf i (hall i (List.mem_cons_self _ _))
    have hrest := ih j l2 e { s with socket := { egress := EgressIf.ByAddr i } } rfl
      (fun i2 hi2 => hall i2 (List.mem_cons_of_mem _ hi2)) hj
    rcases hgo : MulticastSocket.broadcastGo os buf (rest ++ j :: l2)
        { s with socket := { egress := EgressIf.ByAddr i } } with ⟨r2, s2, tr2⟩
    rw [hgo] at hrest
    simp at hrest
    simp [MulticastSocket.broadcastGo, hsend, hgo, hrest.1, hrest.2]

/-- If the broadcast loop succeeded, every per-interface send succeeded. -/
theorem broadcastGo_ok_all (os : Os) (buf : List Nat) (addr : SocketAddrV4) :
    ∀ (l : List Ipv4Addr) (s : MulticastSocket),
      s.multicast_address = addr →
      (MulticastSocket.broadcastGo os buf l s).1 = Except.ok () →
      ∀ i ∈ l, sendIpErr os buf addr i = none := by
  intro l
  induction l with
  | nil => intro s _ _ i hi; cases hi
  | cons i0 rest ih =>
    intro s hs hok i hi
    cases h1 : sendIpErr os buf addr i0 with
    | some e =>
      exfalso
      have hj2 : sendIpErr os buf s.multicast_address i0 = some e := by rw [hs]; exact h1
      obtain ⟨s1, hsend⟩ := send_ip_fail os s buf i0 e hj2
      rw [show (i0 :: rest : List Ipv4Addr) = [] ++ i0 :: rest from rfl] at hok
      have := (broadcastGo_fail os buf addr [] i0 rest e s hs
        (fun _ h => absurd h (List.not_mem_nil _)) h1).1
      rw [this] at hok
      exact Except.noConfusion hok
    | none =>
      have hi0 : sendIpErr os buf s.multicast_address i0 = none := by rw [hs]; exact h1
      obtain ⟨n, hsend⟩ := send_ip_ok os s buf i0 hi0
      rcases List.mem_cons.mp hi with h2 | h2
      · rw [h2]; exact h1
      · have hok2 : (MulticastSocket.broadcastGo os buf rest
              { s with socket := { egress := EgressIf.ByAddr i0 } }).1 = Except.ok () := by
          rcases hgo : MulticastSocket.broadcastGo os buf rest
              { s with socket := { egress := EgressIf.ByAddr i0 } } with ⟨r2, s2, tr2⟩
          have h3 : (MulticastSocket.broadcastGo os buf (i0 :: rest) s).1 = r2 := by
            simp [MulticastSocket.broadcastGo, hsend, hgo]
          rw [h3] at hok
          simp [hok]
        exact ih { s with socket := { egress := EgressIf.ByAddr i0 } } hs hok2 i h2

/-- A sample multicast group address for concrete instances. -/
def group0 : SocketAddrV4 := ⟨⟨224, 0, 0, 251⟩, 5353⟩

/-- A sample socket with no joined interfaces. -/
def sampleSocket : MulticastSocket :=
  { socket := { egress := EgressIf.Unset }
    interfaces := []
    multicast_address := group0
    buffer_size := 512 }

/-- A sample socket with a small receive buffer. -/
def smallSock : MulticastSocket :=
  { socket := { egress := EgressIf.Unset }
    interfaces := []
    multicast_address := group0
    buffer_size := 3 }

/-- A sample recvmsg outcome carrying one packet-info record. -/
def samplePkt : RecvMsgOk :=
  { dgram := [1, 2, 3]
    address := some (SockAddr.Inet (InetAddr.V4 ⟨⟨192, 168, 0, 9⟩, 4000⟩))
    cmsgs := [ControlMessageOwned.Ipv4PacketInfo ⟨5⟩] }

/-- A sample recvmsg outcome with no sender address and no control data. -/
def sampleNoPkt : RecvMsgOk :=
  { dgram := [1, 2, 3], address := none, cmsgs := [] }

/-- A sample recvmsg outcome whose datagram exceeds the buffer of smallSock. -/
def bigDgram : RecvMsgOk :=
  { dgram := [10, 20, 30, 40], address := none, cmsgs := [] }

/-- Claim C2: for every successful receive, the arrival interface of the
returned Message is Interface::Index of the interface index reported by the
packet-info ancillary record (the last such record of the scan) when one is
present, Interface::Default when none is present, and never Interface::Ip. -/
theorem receive_interface_resolution (m : RecvMsgOk) (s : MulticastSocket) :
    (MulticastSocket.receive s (Except.ok m)).1.map Message.interface
      = Except.ok (ifaceOfPktinfo (lastIpv4PacketInfo m.cmsgs)) ∧
    (lastIpv4PacketInfo m.cmsgs = none →
      (MulticastSocket.receive s (Except.ok m)).1.map Message.interface
        = Except.ok Interface.Default) ∧
    (∀ pktinfo, lastIpv4PacketInfo m.cmsgs = some pktinfo →
      (MulticastSocket.receive s (Except.ok m)).1.map Message.interface
        = Except.ok (Interface.Index (u32_cast_of_int pktinfo.ipi_ifindex))) ∧
    (∀ a, (MulticastSocket.receive s (Except.ok m)).1.map Message.interface
        ≠ Except.ok (Interface.Ip a)) := by
  have hc1 : (MulticastSocket.receive s (Except.ok m)).1.map Message.interface
      = Except.ok (ifaceOfPktinfo (lastIpv4PacketInfo m.cmsgs)) := by
    have h0 : (MulticastSocket.receive s (Except.ok m)).1.map Message.interface
        = Except.ok (m.cmsgs.foldl
            (fun acc cmsg =>
              match cmsg with
              | ControlMessageOwned.Ipv4PacketInfo pktinfo =>
                  Interface.Index (u32_cast_of_int pktinfo.ipi_ifindex)
              | _ => acc)
            Interface.Default) := rfl
    rw [h0]
    exact congrArg Except.ok (foldl_interface_eq m.cmsgs none)
  refine ⟨hc1, ?_, ?_, ?_⟩
  · intro h; rw [hc1, h]; rfl
  · intro pktinfo h; rw [hc1, h]; rfl
  · intro a h
    rw [hc1] at h
    rcases hl : lastIpv4PacketInfo m.cmsgs with _ | p <;> rw [hl] at h <;>
      simp [ifaceOfPktinfo] at h

/-- Witness for C2: on a concrete receive with a packet-info record of index
5 the interface is Index 5, and with no record it is Default. -/
theorem receive_interface_resolution_witness :
    (MulticastSocket.receive sampleSocket (Except.ok samplePkt)).1.map Message.interface
        = Except.ok (Interface.Index (u32_cast_of_int 5)) ∧
    (MulticastSocket.receive sampleSocket (Except.ok sampleNoPkt)).1.map Message.interface
        = Except.ok Interface.Default := by
  constructor
  · exact (receive_interface_resolution samplePkt sampleSocket).2.2.1 ⟨5⟩ rfl
  · exact (receive_interface_resolution sampleNoPkt sampleSocket).2.1 rfl

/-- Claim C3: the returned payload is exactly the received bytes (the unused
buffer tail is discarded, so it equals the datagram truncated to buffer_size),
its length never exceeds buffer_size, and an oversized datagram yields exactly
buffer_size bytes with a successful result. -/
theorem receive_payload_truncation (m : RecvMsgOk) (s : MulticastSocket) :
    (MulticastSocket.receive s (Except.ok m)).1.map Message.data
        = Except.ok (m.dgram.take s.buffer_size) ∧
    (∀ msg, (MulticastSocket.receive s (Except.ok m)).1 = Except.ok msg →
        msg.data.length ≤ s.buffer_size) ∧
    (s.buffer_size ≤ m.dgram.length →
      (MulticastSocket.receive s (Except.ok m)).1.map (fun msg => msg.data.length)
        = Except.ok s.buffer_size) := by
  have hc1 : (MulticastSocket.receive s (Except.ok m)).1.map Message.data
      = Except.ok (m.dgram.take s.buffer_size) := by
    have h0 : (MulticastSocket.receive s (Except.ok m)).1.map Message.data
        = Except.ok ((m.dgram.take s.buffer_size ++
            List.replicate (s.buffer_size - m.dgram.length) 0).take
              (min m.dgram.length s.buffer_size)) := rfl
    rw [h0, take_buffer_eq]
  refine ⟨hc1, ?_, ?_⟩
  · intro msg h
    rw [h] at hc1
    simp [Except.map] at hc1
    rw [hc1]
    exact List.length_take_le _ _
  · intro h
    rcases hr : (MulticastSocket.receive s (Except.ok m)).1 with e | msg
    · rw [hr] at hc1; simp [Except.map] at hc1
    · rw [hr] at hc1
      simp [Except.map] at hc1 ⊢
      rw [hc1, List.length_take]
      exact min_eq_left h

/-- Witness for C3: a 4-byte datagram received into a 3-byte buffer yields a
3-byte payload with no error. -/
theorem receive_payload_truncation_witness :
    (MulticastSocket.receive smallSock (Except.ok bigDgram)).1.map (fun msg => msg.data.length)
        = Except.ok smallSock.buffer_size ∧
    ({ data := [10, 20, 30], origin_address := SocketAddrV4.mk Ipv4Addr.UNSPECIFIED 0,
       interface := Interface.Default } : Message).data.length ≤ smallSock.buffer_size := by
  refine ⟨(receive_payload_truncation bigDgram smallSock).2.2 (by decide), ?_⟩
  exact (receive_payload_truncation bigDgram smallSock).2.1 _ rfl

/-- Claim C5: a successful receive with no usable IPv4 sender address still
returns a Message, with origin_address 0.0.0.0:0; with an IPv4 sender address
reported, that address and port are returned. -/
theorem receive_origin_fallback (m : RecvMsgOk) (s : MulticastSocket) :
    ((∀ a, m.address ≠ some (SockAddr.Inet (InetAddr.V4 a))) →
      (MulticastSocket.receive s (Except.ok m)).1.map Message.origin_address
        = Except.ok (SocketAddrV4.mk Ipv4Addr.UNSPECIFIED 0)) ∧
    (∀ a, m.address = some (SockAddr.Inet (InetAddr.V4 a)) →
      (MulticastSocket.receive s (Except.ok m)).1.map Message.origin_address
        = Except.ok a) := by
  obtain ⟨dgram, address, cmsgs⟩ := m
  constructor
  · intro h
    cases address with
    | none => rfl
    | some sa =>
      cases sa with
      | NonInet t => rfl
      | Inet ia =>
        cases ia with
        | V6 r => rfl
        | V4 a => exact absurd rfl (h a)
  · intro a ha
    have ha2 : address = some (SockAddr.Inet (InetAddr.V4 a)) := ha
    subst ha2
    rfl

/-- Witness for C5: a concrete receive with no sender address yields
0.0.0.0:0, and one with an IPv4 sender yields that address. -/
theorem receive_origin_fallback_witness :
    (MulticastSocket.receive sampleSocket (Except.ok sampleNoPkt)).1.map Message.origin_address
        = Except.ok (SocketAddrV4.mk Ipv4Addr.UNSPECIFIED 0) ∧
    (MulticastSocket.receive sampleSocket (Except.ok samplePkt)).1.map Message.origin_address
        = Except.ok ⟨⟨192, 168, 0, 9⟩, 4000⟩ := by
  constructor
  · exact (receive_origin_fallback sampleNoPkt sampleSocket).1
      (fun a h => Option.noConfusion h)
  · exact (receive_origin_fallback samplePkt sampleSocket).2 ⟨⟨192, 168, 0, 9⟩, 4000⟩ rfl

/-- Counterexample for C4: the OS read timeout (errno 11, EAGAIN, produced by
SO_RCVTIMEO expiring under recvmsg) is NOT surfaced with a timeout error
kind.  nix_to_io_error gives it kind Other — the very same kind every other
receive failure gets (errno 9, EBADF, shown for comparison) — so the claim
that receive exposes a distinct timeout error sub-kind fails. -/
theorem receive_timeout_not_distinct_kind :
    (MulticastSocket.receive sampleSocket (Except.error 11)).1
        = Except.error { kind := ErrorKind.Other, errno := some 11 } ∧
    (MulticastSocket.receive sampleSocket (Except.error 9)).1
        = Except.error { kind := ErrorKind.Other, errno := some 9 } ∧
    ErrorKind.Other ≠ ErrorKind.TimedOut ∧
    ErrorKind.Other ≠ ErrorKind.WouldBlock :=
  ⟨rfl, rfl, fun h => ErrorKind.noConfusion h, fun h => ErrorKind.noConfusion h⟩

/-- Claim C4 (amended): every failing receive surfaces one unified error of
kind Other that preserves the underlying OS errno, so a timeout (EAGAIN) is
distinguishable from any other failure only by the preserved errno, not by a
distinct timeout error kind. -/
theorem receive_error_unified (s : MulticastSocket) (e : Nat) :
    (MulticastSocket.receive s (Except.error e)).1
      = Except.error { kind := ErrorKind.Other, errno := some e } := rfl

/-- Filtering the per-interface broadcast trace for writes leaves exactly one
write per interface. -/
theorem flatMap_filter_sendTo (buf : List Nat) (addr : SocketAddrV4) (l : List Ipv4Addr) :
    (l.flatMap (fun i => [OsCall.setMulticastIfV4 i, OsCall.sendTo buf addr])).filter
        OsCall.isSendTo
      = l.map (fun _ => OsCall.sendTo buf addr) := by
  induction l with
  | nil => rfl
  | cons i rest ih =>
    rw [List.flatMap_cons, List.filter_append, ih]
    rfl

/-- Claim C1: broadcast performs one send per joined interface, in join
order, each resolving the egress interface to that interface address and each
writing the payload to the group address; it succeeds iff every
per-interface send succeeds, and the first failing send returns its error and
stops — the completed earlier sends stay in the trace, later interfaces are
never attempted. -/
theorem broadcast_per_interface (os : Os) (s : MulticastSocket) (buf : List Nat) :
    ((MulticastSocket.broadcast os s buf).1 = Except.ok ()
        ↔ ∀ i ∈ s.interfaces, sendIpErr os buf s.multicast_address i = none) ∧
    ((∀ i ∈ s.interfaces, sendIpErr os buf s.multicast_address i = none) →
      (MulticastSocket.broadcast os s buf).2.2
          = s.interfaces.flatMap
              (fun i => [OsCall.setMulticastIfV4 i,
                         OsCall.sendTo buf s.multicast_address]) ∧
      (MulticastSocket.broadcast os s buf).2.2.filter OsCall.isSendTo
          = s.interfaces.map (fun _ => OsCall.sendTo buf s.multicast_address)) ∧
    (∀ l1 j l2 e, s.interfaces = l1 ++ j :: l2 →
      (∀ i ∈ l1, sendIpErr os buf s.multicast_address i = none) →
      sendIpErr os buf s.multicast_address j = some e →
      (MulticastSocket.broadcast os s buf).1 = Except.error e ∧
      (MulticastSocket.broadcast os s buf).2.2
          = l1.flatMap (fun i => [OsCall.setMulticastIfV4 i,
                                  OsCall.sendTo buf s.multicast_address])
              ++ sendIpCalls os buf s.multicast_address j) := by
  refine ⟨⟨?_, ?_⟩, ?_, ?_⟩
  · exact fun h => broadcastGo_ok_all os buf s.multicast_address s.interfaces s rfl h
  · intro h
    exact (broadcastGo_all_ok os buf s.multicast_address s.interfaces s rfl h).1
  · intro h
    have h2 := broadcastGo_all_ok os buf s.multicast_address s.interfaces s rfl h
    refine ⟨h2.2, ?_⟩
    show (MulticastSocket.broadcastGo os buf s.interfaces s).2.2.filter OsCall.isSendTo
        = s.interfaces.map (fun _ => OsCall.sendTo buf s.multicast_address)
    rw [h2.2, flatMap_filter_sendTo]
  · intro l1 j l2 e hsplit hall hj
    have hb : MulticastSocket.broadcast os s buf
        = MulticastSocket.broadcastGo os buf (l1 ++ j :: l2) s :=
      congrArg (fun l => MulticastSocket.broadcastGo os buf l s) hsplit
    rw [hb]
    exact broadcastGo_fail os buf s.multicast_address l1 j l2 e s rfl hall hj

/-- An OS oracle on which every call succeeds; send_to reports the full
payload length as written. -/
def allOkOs : Os :=
  { socket_new := Except.ok ()
    set_read_timeout := fun _ => Except.ok ()
    set_multicast_loop_v4 := fun _ => Except.ok ()
    set_reuse_address := fun _ => Except.ok ()
    set_reuse_port := fun _ => Except.ok ()
    setsockopt_pktinfo := Except.ok ()
    join_multicast_v4 := fun _ _ => Except.ok ()
    bind := fun _ => Except.ok ()
    set_multicast_if_v4 := fun _ => Except.ok ()
    setsockopt_if_index := fun _ => Except.ok ()
    send_to := fun buf _ => Except.ok buf.length }

/-- A sample io error. -/
def err0 : IoError := { kind := ErrorKind.Other, errno := some 101 }

/-- An oracle whose datagram writes all fail. -/
def sendFailOs : Os := { allOkOs with send_to := fun _ _ => Except.error err0 }

/-- Sample interface addresses and a socket joined to both. -/
def addrA : Ipv4Addr := ⟨192, 168, 0, 7⟩

/-- Second sample interface address. -/
def addrB : Ipv4Addr := ⟨10, 1, 2, 3⟩

/-- A sample socket joined to addrA then addrB. -/
def sockAB : MulticastSocket :=
  { socket := { egress := EgressIf.Unset }
    interfaces := [addrA, addrB]
    multicast_address := group0
    buffer_size := 512 }

/-- Witness for C1: on a two-interface socket with an all-success oracle,
broadcast performs both sends in join order; with a failing write, it stops
after the first send and returns its error. -/
theorem broadcast_per_interface_witness :
    (MulticastSocket.broadcast allOkOs sockAB [1, 2]).1 = Except.ok () ∧
    (MulticastSocket.broadcast allOkOs sockAB [1, 2]).2.2
        = [OsCall.setMulticastIfV4 addrA, OsCall.sendTo [1, 2] group0,
           OsCall.setMulticastIfV4 addrB, OsCall.sendTo [1, 2] group0] ∧
    (MulticastSocket.broadcast sendFailOs sockAB [1, 2]).1 = Except.error err0 ∧
    (MulticastSocket.broadcast sendFailOs sockAB [1, 2]).2.2
        = [OsCall.setMulticastIfV4 addrA, OsCall.sendTo [1, 2] group0] := by
  have hall : ∀ i ∈ sockAB.interfaces,
      sendIpErr allOkOs [1, 2] sockAB.multicast_address i = none := fun i _ => rfl
  have h1 := (broadcast_per_interface allOkOs sockAB [1, 2]).1.mpr hall
  have h2 := (broadcast_per_interface allOkOs sockAB [1, 2]).2.1 hall
  have h3 := (broadcast_per_interface sendFailOs sockAB [1, 2]).2.2 [] addrA [addrB] err0
    rfl (fun i hi => absurd hi (List.not_mem_nil i)) rfl
  refine ⟨h1, ?_, h3.1, ?_⟩
  · rw [h2.1]; rfl
  · rw [h3.2]; rfl

/-- Claim C10: broadcast on a socket whose joined-interface list is empty
succeeds and performs no OS call at all, in particular zero sends. -/
theorem broadcast_empty_interfaces (os : Os) (s : MulticastSocket) (buf : List Nat)
    (h : s.interfaces = []) :
    (MulticastSocket.broadcast os s buf).1 = Except.ok () ∧
    (MulticastSocket.broadcast os s buf).2.2 = [] := by
  have hb : MulticastSocket.broadcast os s buf = MulticastSocket.broadcastGo os buf [] s :=
    congrArg (fun l => MulticastSocket.broadcastGo os buf l s) h
  rw [hb]
  exact ⟨rfl, rfl⟩

/-- Witness for C10: even over an oracle whose writes all fail, broadcast on
an interface-less socket succeeds with an empty trace. -/
theorem broadcast_empty_interfaces_witness :
    (MulticastSocket.broadcast sendFailOs sampleSocket [9]).1 = Except.ok () ∧
    (MulticastSocket.broadcast sendFailOs sampleSocket [9]).2.2 = [] :=
  broadcast_empty_interfaces sendFailOs sampleSocket [9] rfl

/-- Claim C8: send resolves the egress interface before writing — its first
OS call is set_multicast_if_v4 0.0.0.0 for Default, set_multicast_if_v4 addr
for Ip, and the distinct raw ip_mreqn index option for Index; when the
option-set succeeds the full payload is written to the group address and the
byte count (or error) of the write is returned, and when the option-set fails its
error is returned with no write performed. -/
theorem send_resolves_egress (os : Os) (s : MulticastSocket) (buf : List Nat) :
    ((MulticastSocket.send os s buf Interface.Default).2.2.head?
        = some (OsCall.setMulticastIfV4 Ipv4Addr.UNSPECIFIED)) ∧
    (os.set_multicast_if_v4 Ipv4Addr.UNSPECIFIED = Except.ok () →
      (MulticastSocket.send os s buf Interface.Default).1
          = os.send_to buf s.multicast_address ∧
      (MulticastSocket.send os s buf Interface.Default).2.2
          = [OsCall.setMulticastIfV4 Ipv4Addr.UNSPECIFIED,
             OsCall.sendTo buf s.multicast_address]) ∧
    (∀ e, os.set_multicast_if_v4 Ipv4Addr.UNSPECIFIED = Except.error e →
      (MulticastSocket.send os s buf Interface.Default).1 = Except.error e ∧
      (MulticastSocket.send os s buf Interface.Default).2.2
          = [OsCall.setMulticastIfV4 Ipv4Addr.UNSPECIFIED]) ∧
    (∀ a, (MulticastSocket.send os s buf (Interface.Ip a)).2.2.head?
        = some (OsCall.setMulticastIfV4 a)) ∧
    (∀ a, os.set_multicast_if_v4 a = Except.ok () →
      (MulticastSocket.send os s buf (Interface.Ip a)).1
          = os.send_to buf s.multicast_address ∧
      (MulticastSocket.send os s buf (Interface.Ip a)).2.2
          = [OsCall.setMulticastIfV4 a, OsCall.sendTo buf s.multicast_address]) ∧
    (∀ a e, os.set_multicast_if_v4 a = Except.error e →
      (MulticastSocket.send os s buf (Interface.Ip a)).1 = Except.error e ∧
      (MulticastSocket.send os s buf (Interface.Ip a)).2.2
          = [OsCall.setMulticastIfV4 a]) ∧
    (∀ idx, (MulticastSocket.send os s buf (Interface.Index idx)).2.2.head?
        = some (OsCall.setsockoptMulticastIfIndex (ProtoMulticastIfIndex.req idx))) ∧
    (∀ idx, os.setsockopt_if_index (ProtoMulticastIfIndex.req idx) = Except.ok () →
      (MulticastSocket.send os s buf (Interface.Index idx)).1
          = os.send_to buf s.multicast_address ∧
      (MulticastSocket.send os s buf (Interface.Index idx)).2.2
          = [OsCall.setsockoptMulticastIfIndex (ProtoMulticastIfIndex.req idx),
             OsCall.sendTo buf s.multicast_address]) ∧
    (∀ idx e, os.setsockopt_if_index (ProtoMulticastIfIndex.req idx) = Except.error e →
      (MulticastSocket.send os s buf (Interface.Index idx)).1
          = Except.error (nix_to_io_error e) ∧
      (MulticastSocket.send os s buf (Interface.Index idx)).2.2
          = [OsCall.setsockoptMulticastIfIndex (ProtoMulticastIfIndex.req idx)]) ∧
    (∀ idx a, OsCall.setsockoptMulticastIfIndex (ProtoMulticastIfIndex.req idx)
        ≠ OsCall.setMulticastIfV4 a) := by
  refine ⟨?_, ?_, ?_, ?_, ?_, ?_, ?_, ?_, ?_, ?_⟩
  · cases h : os.set_multicast_if_v4 Ipv4Addr.UNSPECIFIED <;>
      simp [MulticastSocket.send, h]
  · intro h; simp [MulticastSocket.send, h]
  · intro e h; simp [MulticastSocket.send, h]
  · intro a
    cases h : os.set_multicast_if_v4 a <;> simp [MulticastSocket.send, h]
  · intro a h; simp [MulticastSocket.send, h]
  · intro a e h; simp [MulticastSocket.send, h]
  · intro idx
    cases h : os.setsockopt_if_index (ProtoMulticastIfIndex.req idx) <;>
      simp [MulticastSocket.send, h]
  · intro idx h; simp [MulticastSocket.send, h]
  · intro idx e h; simp [MulticastSocket.send, h]
  · intro idx a h; exact OsCall.noConfusion h

/-- An oracle whose raw index-option setsockopt fails with errno 22. -/
def idxFailOs : Os := { allOkOs with setsockopt_if_index := fun _ => Except.error 22 }

/-- Witness for C8: concrete sends resolving the egress interface by address
and by index, with the index-option failure aborting before the write. -/
theorem send_resolves_egress_witness :
    (MulticastSocket.send allOkOs sockAB [1, 2, 3] (Interface.Ip addrA)).1
        = Except.ok 3 ∧
    (MulticastSocket.send allOkOs sockAB [1, 2, 3] (Interface.Ip addrA)).2.2
        = [OsCall.setMulticastIfV4 addrA, OsCall.sendTo [1, 2, 3] group0] ∧
    (MulticastSocket.send allOkOs sockAB [1, 2, 3] Interface.Default).2.2
        = [OsCall.setMulticastIfV4 Ipv4Addr.UNSPECIFIED, OsCall.sendTo [1, 2, 3] group0] ∧
    (MulticastSocket.send idxFailOs sockAB [1, 2, 3] (Interface.Index 4)).1
        = Except.error (nix_to_io_error 22) ∧
    (MulticastSocket.send idxFailOs sockAB [1, 2, 3] (Interface.Index 4)).2.2
        = [OsCall.setsockoptMulticastIfIndex (ProtoMulticastIfIndex.req 4)] := by
  obtain ⟨p1, p2, p3, p4, p5, p6, p7, p8, p9, p10⟩ :=
    send_resolves_egress allOkOs sockAB [1, 2, 3]
  obtain ⟨q1, q2, q3, q4, q5, q6, q7, q8, q9, q10⟩ :=
    send_resolves_egress idxFailOs sockAB [1, 2, 3]
  exact ⟨(p5 addrA rfl).1, (p5 addrA rfl).2, (p2 rfl).2,
    (q9 4 22 rfl).1, (q9 4 22 rfl).2⟩

/-- Every single operation preserves the configuration fields. -/
theorem applyOp_config (os : Os) (s : MulticastSocket) (op : SocketOp) :
    (applyOp os s op).interfaces = s.interfaces ∧
    (applyOp os s op).multicast_address = s.multicast_address ∧
    (applyOp os s op).buffer_size = s.buffer_size := by
  cases op with
  | opReceive r => cases r <;> exact ⟨rfl, rfl, rfl⟩
  | opSend buf i => exact send_config os s buf i
  | opBroadcast buf => exact broadcastGo_config os buf s.interfaces s

/-- Claim C9: across every sequence of receive, send and broadcast calls, the
joined-interface list of the socket (in join order), group address+port and buffer
size are unchanged — only the OS-level egress option state may move. -/
theorem config_immutable (os : Os) (s : MulticastSocket) (ops : List SocketOp) :
    (runOps os s ops).interfaces = s.interfaces ∧
    (runOps os s ops).multicast_address = s.multicast_address ∧
    (runOps os s ops).buffer_size = s.buffer_size := by
  induction ops generalizing s with
  | nil => exact ⟨rfl, rfl, rfl⟩
  | cons op rest ih =>
    have h1 := applyOp_config os s op
    have h2 := ih (applyOp os s op)
    exact ⟨h2.1.trans h1.1, h2.2.1.trans h1.2.1, h2.2.2.trans h1.2.2⟩

/-- Claim C6: construction performs its OS steps in exactly the source
order — create socket, read timeout, multicast loopback, address reuse, port
reuse, per-packet interface metadata, one group join per interface in list
order, and finally a bind to the multicast group address itself (not a
wildcard): whatever trace construction produces is a front segment of that
sequence, and on success it is exactly that sequence. -/
theorem create_call_order (os : Os) (options : MulticastOptions)
    (interfaces : List Ipv4Addr) (multicast_address : SocketAddrV4) :
    (∃ t, (create_on_interfaces os options interfaces multicast_address).2 ++ t
        = createCalls options interfaces multicast_address) ∧
    (∀ sock,
      (create_on_interfaces os options interfaces multicast_address).1 = Except.ok sock →
      (create_on_interfaces os options interfaces multicast_address).2
        = createCalls options interfaces multicast_address) := by
  constructor
  · obtain ⟨t, ht⟩ := runSteps_front (createSteps os options interfaces multicast_address)
    refine ⟨t, ?_⟩
    rw [create_trace_eq, ht, createSteps_map_fst]
  · intro sock h
    have hn := create_ok_none os options interfaces multicast_address sock h
    rw [create_trace_eq, runSteps_none_trace _ hn, createSteps_map_fst]

/-- Witness for C6: a successful construction over two interfaces produces
exactly the ordered call list. -/
theorem create_call_order_witness :
    (create_on_interfaces allOkOs MulticastOptions.default [addrA, addrB] group0).2
        = createCalls MulticastOptions.default [addrA, addrB] group0 :=
  (create_call_order allOkOs MulticastOptions.default [addrA, addrB] group0).2
    { socket := { egress := EgressIf.Unset }
      interfaces := [addrA, addrB]
      multicast_address := group0
      buffer_size := 512 } rfl

/-- The error of the first failing step of a step list, none when all
steps succeed. -/
def stepsErr : List (OsCall × Except IoError Unit) → Option IoError
  | [] => none
  | (_, Except.ok _) :: rest => stepsErr rest
  | (_, Except.error e) :: _ => some e

/-- The error a run reports is the error of the first failing step. -/
theorem runSteps_snd_eq_stepsErr (l : List (OsCall × Except IoError Unit)) :
    (runSteps l).2 = stepsErr l := by
  induction l with
  | nil => rfl
  | cons p rest ih =>
    obtain ⟨c, r⟩ := p
    cases r with
    | ok v => simp [runSteps, stepsErr, ih]
    | error e => simp [runSteps, stepsErr]

/-- A front segment of successful steps does not contribute the first
error. -/
theorem stepsErr_append_ok (L1 L2 : List (OsCall × Except IoError Unit))
    (h : ∀ p ∈ L1, p.2 = Except.ok ()) :
    stepsErr (L1 ++ L2) = stepsErr L2 := by
  induction L1 with
  | nil => rfl
  | cons p rest ih =>
    obtain ⟨c, r⟩ := p
    have hp := h (c, r) (List.mem_cons_self _ _)
    simp at hp
    subst hp
    simp only [List.cons_append, stepsErr]
    exact ih (fun q hq => h q (List.mem_cons_of_mem _ hq))

/-- create_on_interfaces surfaces the error of the first failing OS step. -/
theorem create_err (os : Os) (options : MulticastOptions)
    (interfaces : List Ipv4Addr) (multicast_address : SocketAddrV4) (e : IoError)
    (h : stepsErr (createSteps os options interfaces multicast_address) = some e) :
    (create_on_interfaces os options interfaces multicast_address).1 = Except.error e := by
  have h2 : (runSteps (createSteps os options interfaces multicast_address)).2 = some e := by
    rw [runSteps_snd_eq_stepsErr]
    exact h
  unfold create_on_interfaces
  rcases h3 : runSteps (createSteps os options interfaces multicast_address) with ⟨tr, err⟩
  rw [h3] at h2
  simp at h2
  subst h2
  simp

/-- Claim C7: a socket is returned only when every OS step succeeded (so any
failing step means no socket), and each OS step — socket creation, each
option-set, each join, the bind — when it is the first to fail, makes
construction return that very underlying error; additionally, when the join
on a later interface fails first, construction stops right there: the error
is returned, the earlier joins stay done (and stay in the trace — there is
no leave/rollback call in the vocabulary), and neither the remaining joins
nor the bind are executed. -/
theorem create_failure_aborts (os : Os) (options : MulticastOptions)
    (multicast_address : SocketAddrV4) :
    (∀ interfaces sock,
        (create_on_interfaces os options interfaces multicast_address).1 = Except.ok sock →
        os.socket_new = Except.ok () ∧
        os.set_read_timeout options.read_timeout = Except.ok () ∧
        os.set_multicast_loop_v4 options.loopback = Except.ok () ∧
        os.set_reuse_address true = Except.ok () ∧
        os.set_reuse_port true = Except.ok () ∧
        os.setsockopt_pktinfo = Except.ok () ∧
        (∀ i ∈ interfaces, os.join_multicast_v4 multicast_address.ip i = Except.ok ()) ∧
        bind_multicast os multicast_address = Except.ok ()) ∧
    (∀ interfaces e, os.socket_new = Except.error e →
        (create_on_interfaces os options interfaces multicast_address).1
            = Except.error e) ∧
    (∀ interfaces e,
        os.socket_new = Except.ok () →
        os.set_read_timeout options.read_timeout = Except.error e →
        (create_on_interfaces os options interfaces multicast_address).1
            = Except.error e) ∧
    (∀ interfaces e,
        os.socket_new = Except.ok () →
        os.set_read_timeout options.read_timeout = Except.ok () →
        os.set_multicast_loop_v4 options.loopback = Except.error e →
        (create_on_interfaces os options interfaces multicast_address).1
            = Except.error e) ∧
    (∀ interfaces e,
        os.socket_new = Except.ok () →
        os.set_read_timeout options.read_timeout = Except.ok () →
        os.set_multicast_loop_v4 options.loopback = Except.ok () →
        os.set_reuse_address true = Except.error e →
        (create_on_interfaces os options interfaces multicast_address).1
            = Except.error e) ∧
    (∀ interfaces e,
        os.socket_new = Except.ok () →
        os.set_read_timeout options.read_timeout = Except.ok () →
        os.set_multicast_loop_v4 options.loopback = Except.ok () →
        os.set_reuse_address true = Except.ok () →
        os.set_reuse_port true = Except.error e →
        (create_on_interfaces os options interfaces multicast_address).1
            = Except.error e) ∧
    (∀ interfaces en,
        os.socket_new = Except.ok () →
        os.set_read_timeout options.read_timeout = Except.ok () →
        os.set_multicast_loop_v4 options.loopback = Except.ok () →
        os.set_reuse_address true = Except.ok () →
        os.set_reuse_port true = Except.ok () →
        os.setsockopt_pktinfo = Except.error en →
        (create_on_interfaces os options interfaces multicast_address).1
            = Except.error (nix_to_io_error en)) ∧
    (∀ l1 j l2 e,
        os.socket_new = Except.ok () →
        os.set_read_timeout options.read_timeout = Except.ok () →
        os.set_multicast_loop_v4 options.loopback = Except.ok () →
        os.set_reuse_address true = Except.ok () →
        os.set_reuse_port true = Except.ok () →
        os.setsockopt_pktinfo = Except.ok () →
        (∀ i ∈ l1, os.join_multicast_v4 multicast_address.ip i = Except.ok ()) →
        os.join_multicast_v4 multicast_address.ip j = Except.error e →
        (create_on_interfaces os options (l1 ++ j :: l2) multicast_address).1
            = Except.error e ∧
        (create_on_interfaces os options (l1 ++ j :: l2) multicast_address).2
            = ([OsCall.socketNew,
                OsCall.setReadTimeout options.read_timeout,
                OsCall.setMulticastLoopV4 options.loopback,
                OsCall.setReuseAddress true,
                OsCall.setReusePort true,
                OsCall.setsockoptIpv4PacketInfo true]
               ++ l1.map (fun i => OsCall.joinMulticastV4 multicast_address.ip i))
              ++ [OsCall.joinMulticastV4 multicast_address.ip j]) ∧
    (∀ interfaces e,
        os.socket_new = Except.ok () →
        os.set_read_timeout options.read_timeout = Except.ok () →
        os.set_multicast_loop_v4 options.loopback = Except.ok () →
        os.set_reuse_address true = Except.ok () →
        os.set_reuse_port true = Except.ok () →
        os.setsockopt_pktinfo = Except.ok () →
        (∀ i ∈ interfaces, os.join_multicast_v4 multicast_address.ip i = Except.ok ()) →
        bind_multicast os multicast_address = Except.error e →
        (create_on_interfaces os options interfaces multicast_address).1
            = Except.error e) := by
  refine ⟨?_, ?_, ?_, ?_, ?_, ?_, ?_, ?_, ?_⟩
  · intro interfaces sock h
    have hn := create_ok_none os options interfaces multicast_address sock h
    have hall := runSteps_none_forall _ hn
    refine ⟨hall (OsCall.socketNew, os.socket_new) (by simp [createSteps]),
      hall (OsCall.setReadTimeout options.read_timeout,
        os.set_read_timeout options.read_timeout) (by simp [createSteps]),
      hall (OsCall.setMulticastLoopV4 options.loopback,
        os.set_multicast_loop_v4 options.loopback) (by simp [createSteps]),
      hall (OsCall.setReuseAddress true, os.set_reuse_address true) (by simp [createSteps]),
      hall (OsCall.setReusePort true, os.set_reuse_port true) (by simp [createSteps]),
      ?_, ?_, ?_⟩
    · have h6 := hall (OsCall.setsockoptIpv4PacketInfo true,
        mapErr nix_to_io_error os.setsockopt_pktinfo) (by simp [createSteps])
      cases hp : os.setsockopt_pktinfo with
      | ok v => rfl
      | error e2 => rw [hp] at h6; simp [mapErr] at h6
    · intro i hi
      refine hall (OsCall.joinMulticastV4 multicast_address.ip i,
        os.join_multicast_v4 multicast_address.ip i) ?_
      unfold createSteps
      exact List.mem_append_left _
        (List.mem_append_right _ (List.mem_map_of_mem _ hi))
    · exact hall (OsCall.bindTo multicast_address, bind_multicast os multicast_address)
        (by simp [createSteps])
  · intro interfaces e h
    exact create_err os options interfaces multicast_address e
      (by simp [createSteps, stepsErr, h])
  · intro interfaces e h1 h
    exact create_err os options interfaces multicast_address e
      (by simp [createSteps, stepsErr, h1, h])
  · intro interfaces e h1 h2 h
    exact create_err os options interfaces multicast_address e
      (by simp [createSteps, stepsErr, h1, h2, h])
  · intro interfaces e h1 h2 h3 h
    exact create_err os options interfaces multicast_address e
      (by simp [createSteps, stepsErr, h1, h2, h3, h])
  · intro interfaces e h1 h2 h3 h4 h
    exact create_err os options interfaces multicast_address e
      (by simp [createSteps, stepsErr, h1, h2, h3, h4, h])
  · intro interfaces en h1 h2 h3 h4 h5 h
    exact create_err os options interfaces multicast_address (nix_to_io_error en)
      (by simp [createSteps, stepsErr, mapErr, h1, h2, h3, h4, h5, h])
  · intro l1 j l2 e h1 h2 h3 h4 h5 h6 hjoins hj
    have hsteps : createSteps os options (l1 ++ j :: l2) multicast_address
        = ([(OsCall.socketNew, os.socket_new),
            (OsCall.setReadTimeout options.read_timeout,
             os.set_read_timeout options.read_timeout),
            (OsCall.setMulticastLoopV4 options.loopback,
             os.set_multicast_loop_v4 options.loopback),
            (OsCall.setReuseAddress true, os.set_reuse_address true),
            (OsCall.setReusePort true, os.set_reuse_port true),
            (OsCall.setsockoptIpv4PacketInfo true,
             mapErr nix_to_io_error os.setsockopt_pktinfo)]
           ++ l1.map (fun i =>
                (OsCall.joinMulticastV4 multicast_address.ip i,
                 os.join_multicast_v4 multicast_address.ip i)))
          ++ (OsCall.joinMulticastV4 multicast_address.ip j, Except.error e)
            :: (l2.map (fun i =>
                  (OsCall.joinMulticastV4 multicast_address.ip i,
                   os.join_multicast_v4 multicast_address.ip i))
                ++ [(OsCall.bindTo multicast_address,
                     bind_multicast os multicast_address)]) := by
      rw [← hj]
      simp [createSteps]
    have hok : ∀ p ∈ ([(OsCall.socketNew, os.socket_new),
            (OsCall.setReadTimeout options.read_timeout,
             os.set_read_timeout options.read_timeout),
            (OsCall.setMulticastLoopV4 options.loopback,
             os.set_multicast_loop_v4 options.loopback),
            (OsCall.setReuseAddress true, os.set_reuse_address true),
            (OsCall.setReusePort true, os.set_reuse_port true),
            (OsCall.setsockoptIpv4PacketInfo true,
             mapErr nix_to_io_error os.setsockopt_pktinfo)]
           ++ l1.map (fun i =>
                (OsCall.joinMulticastV4 multicast_address.ip i,
                 os.join_multicast_v4 multicast_address.ip i))), p.2 = Except.ok () := by
      intro p hp
      rcases List.mem_append.mp hp with hp1 | hp1
      · simp at hp1
        rcases hp1 with hq | hq | hq | hq | hq | hq <;> rw [hq]
        · exact h1
        · exact h2
        · exact h3
        · exact h4
        · exact h5
        · rw [h6]; rfl
      · obtain ⟨i, hi, hpi⟩ := List.mem_map.mp hp1
        rw [← hpi]
        exact hjoins i hi
    have hrun := runSteps_split _ (OsCall.joinMulticastV4 multicast_address.ip j) e
      (l2.map (fun i =>
          (OsCall.joinMulticastV4 multicast_address.ip i,
           os.join_multicast_v4 multicast_address.ip i))
        ++ [(OsCall.bindTo multicast_address, bind_multicast os multicast_address)]) hok
    rw [← hsteps] at hrun
    constructor
    · unfold create_on_interfaces
      rw [hrun]
    · unfold create_on_interfaces
      rw [hrun]
      simp
  · intro interfaces e h1 h2 h3 h4 h5 h6 hjoins hb
    apply create_err
    have hok : ∀ p ∈ ([(OsCall.socketNew, os.socket_new),
            (OsCall.setReadTimeout options.read_timeout,
             os.set_read_timeout options.read_timeout),
            (OsCall.setMulticastLoopV4 options.loopback,
             os.set_multicast_loop_v4 options.loopback),
            (OsCall.setReuseAddress true, os.set_reuse_address true),
            (OsCall.setReusePort true, os.set_reuse_port true),
            (OsCall.setsockoptIpv4PacketInfo true,
             mapErr nix_to_io_error os.setsockopt_pktinfo)]
           ++ interfaces.map (fun i =>
                (OsCall.joinMulticastV4 multicast_address.ip i,
                 os.join_multicast_v4 multicast_address.ip i))), p.2 = Except.ok () := by
      intro p hp
      rcases List.mem_append.mp hp with hp1 | hp1
      · simp at hp1
        rcases hp1 with hq | hq | hq | hq | hq | hq <;> rw [hq]
        · exact h1
        · exact h2
        · exact h3
        · exact h4
        · exact h5
        · rw [h6]; rfl
      · obtain ⟨i, hi, hpi⟩ := List.mem_map.mp hp1
        rw [← hpi]
        exact hjoins i hi
    have hsplit : createSteps os options interfaces multicast_address
        = ([(OsCall.socketNew, os.socket_new),
            (OsCall.setReadTimeout options.read_timeout,
             os.set_read_timeout options.read_timeout),
            (OsCall.setMulticastLoopV4 options.loopback,
             os.set_multicast_loop_v4 options.loopback),
            (OsCall.setReuseAddress true, os.set_reuse_address true),
            (OsCall.setReusePort true, os.set_reuse_port true),
            (OsCall.setsockoptIpv4PacketInfo true,
             mapErr nix_to_io_error os.setsockopt_pktinfo)]
           ++ interfaces.map (fun i =>
                (OsCall.joinMulticastV4 multicast_address.ip i,
                 os.join_multicast_v4 multicast_address.ip i)))
          ++ [(OsCall.bindTo multicast_address, bind_multicast os multicast_address)] := rfl
    rw [hsplit, stepsErr_append_ok _ _ hok]
    simp [stepsErr, hb]

/-- An oracle whose group join fails on addrB only. -/
def joinFailOs : Os :=
  { allOkOs with
    join_multicast_v4 := fun _ i => if i = addrB then Except.error err0 else Except.ok () }

/-- An oracle whose socket creation fails. -/
def createFailOs : Os := { allOkOs with socket_new := Except.error err0 }

/-- An oracle whose bind fails. -/
def bindFailOs : Os := { allOkOs with bind := fun _ => Except.error err0 }

/-- Witness for C7: with the join on addrB failing, construction on
[addrA, addrB] returns that error and its trace stops at the failing join —
the join on addrA was performed, the join on addrB failed, no bind happened;
a failing socket creation and a failing bind likewise surface their own
error. -/
theorem create_failure_aborts_witness :
    (create_on_interfaces joinFailOs MulticastOptions.default [addrA, addrB] group0).1
        = Except.error err0 ∧
    (create_on_interfaces joinFailOs MulticastOptions.default [addrA, addrB] group0).2
        = [OsCall.socketNew,
           OsCall.setReadTimeout 100,
           OsCall.setMulticastLoopV4 false,
           OsCall.setReuseAddress true,
           OsCall.setReusePort true,
           OsCall.setsockoptIpv4PacketInfo true,
           OsCall.joinMulticastV4 group0.ip addrA,
           OsCall.joinMulticastV4 group0.ip addrB] ∧
    (create_on_interfaces createFailOs MulticastOptions.default [addrA] group0).1
        = Except.error err0 ∧
    (create_on_interfaces bindFailOs MulticastOptions.default [addrA] group0).1
        = Except.error err0 := by
  obtain ⟨hA, hB1, hB2, hB3, hB4, hB5, hB6, hB7, hB8⟩ :=
    create_failure_aborts joinFailOs MulticastOptions.default group0
  have h := hB7 [addrA] addrB [] err0 rfl rfl rfl rfl rfl rfl
    (fun i hi => by
      rcases List.mem_singleton.mp hi with rfl
      rfl)
    rfl
  obtain ⟨-, hC1, -, -, -, -, -, -, -⟩ :=
    create_failure_aborts createFailOs MulticastOptions.default group0
  obtain ⟨-, -, -, -, -, -, -, -, hD8⟩ :=
    create_failure_aborts bindFailOs MulticastOptions.default group0
  refine ⟨h.1, h.2, hC1 [addrA] err0 rfl, ?_⟩
  exact hD8 [addrA] err0 rfl rfl rfl rfl rfl rfl
    (fun i hi => by
      rcases List.mem_singleton.mp hi with rfl
      rfl)
    rfl

end MCast
